import Mathlib

/-!
# APWine SDK — shallow embedding and verification

Shallow embedding of the APWine SDK client library (`src/sdk.ts`,
`src/contracts.ts`, `src/futures.ts`) and of the spec-modelled token
path resolver, together with theorems settling the frozen claims.

Remote contract interactions are modelled as an explicit trace of
`RCall` events appended in issuance order.  JavaScript async semantics
are modelled deterministically: an awaited call's events appear inline
at the await point; a fire-and-forget async call contributes only its
synchronous prefix (the calls issued before its first `await`) at the
call site, and its remaining calls are appended after the caller's own
synchronous segment (network responses never arrive inside a
synchronous segment).
-/

/-- Network identifiers, from `src/constants` (the values used by the tests). -/
inductive Network where
  | mainnet
  | polygon
deriving DecidableEq, Repr

/-- A transaction signer, identified abstractly. -/
abbrev Signer := Nat

/-- A read-only provider.  `multicall` models wrapping in
`providers.MulticallProvider` as done by the SDK constructor. -/
inductive Provider where
  | base (id : Nat)
  | multicall (p : Provider)
deriving DecidableEq, Repr

/-- The capability a contract handle is bound with: either a signer or a
read-only provider (`Signer | Provider` in the source). -/
inductive SignerOrProvider where
  | signer (sg : Signer)
  | provider (p : Provider)
deriving DecidableEq, Repr

/-- On-chain addresses, identified abstractly. -/
inductive Address where
  | ofSigner (sg : Signer)
  | amm (n : Network)
  | registry (n : Network)
  | router (n : Network)
  | addr (id : Nat)
deriving DecidableEq, Repr

/-- `await signer.getAddress()` resolves to the signer's own address. -/
def signerAddress (sg : Signer) : Address := Address.ofSigner sg

/-- A contract handle: one on-chain address bound to the capability that
was used to connect it (`Factory.connect(address, signerOrProvider)`). -/
structure BoundContract where
  cap : SignerOrProvider
  address : Address
deriving DecidableEq, Repr

/-- Modelled from the spec: the external static mapping from network id to
the fixed AMM contract address (`config.networks[network].AMM_ADDRESS`;
`config.json` is an external read-only collaborator). -/
def AMM_ADDRESS (n : Network) : Address := Address.amm n

/-- Modelled from the spec: the external static mapping from network id to
the fixed registry contract address. -/
def REGISTRY_ADDRESS (n : Network) : Address := Address.registry n

/-- Modelled from the spec: the external static mapping from network id to
the fixed AMM router contract address. -/
def ROUTER_ADDRESS (n : Network) : Address := Address.router n

/-- `getAMMContract` from `src/contracts.ts`: connect the fixed AMM address
with the given capability. -/
def getAMMContract (sp : SignerOrProvider) (n : Network) : BoundContract :=
  ⟨sp, AMM_ADDRESS n⟩

/-- `getRegistryContract` from `src/contracts.ts`. -/
def getRegistryContract (sp : SignerOrProvider) (n : Network) : BoundContract :=
  ⟨sp, REGISTRY_ADDRESS n⟩

/-- `getAMMRouterContract` from `src/contracts.ts` (same shape as the other
fixed-address getters). -/
def getAMMRouterContract (sp : SignerOrProvider) (n : Network) : BoundContract :=
  ⟨sp, ROUTER_ADDRESS n⟩

/-- One remote call, recorded at issuance.  Reads and writes are both
events; a transaction-submitting call doubles as its own pending
transaction handle. -/
inductive RCall where
  /-- `signer.getAddress()` -/
  | getAddress (sg : Signer)
  /-- `token.allowance(owner, spender)` — remote read on the token contract -/
  | allowance (token owner spender : Address)
  /-- `token.approve(spender, amount)` — approval transaction -/
  | approveTx (token spender : Address) (amount : Int)
  /-- `registry.getControllerAddress()` — remote read -/
  | getControllerAddress (n : Network)
  /-- `controller.deposit(future, amount)` — deposit transaction -/
  | controllerDeposit (controller future : Address) (amount : Int)
  /-- `controller.withdraw(future, amount)` — withdraw transaction -/
  | controllerWithdraw (controller future : Address) (amount : Int)
  /-- `token.increaseAllowance(spender, amount)` -/
  | increaseAllowance (token spender : Address) (amount : Int)
  /-- `token.decreaseAllowance(spender, amount)` -/
  | decreaseAllowance (token spender : Address) (amount : Int)
deriving DecidableEq, Repr

/-- The state of the remote chain a call sequence runs against: the values
the remote reads would return. -/
structure ChainEnv where
  /-- value returned by `token.allowance(account, spender)` -/
  allowance : Int
  /-- value returned by `registry.getControllerAddress()` -/
  controllerAddress : Address
deriving DecidableEq, Repr

/-- Error records produced by `error(...)` from `utils/general`. -/
inductive SDKError where
  | NoSigner
deriving DecidableEq, Repr

/-- `SDKFunctionReturnType<Transaction>`: either an error record or
`{ transaction }`, where the transaction handle may be `undefined`. -/
abbrev SDKResult := Except SDKError (Option RCall)

/-- A JavaScript Promise object holding the value it will resolve to. -/
structure JsPromise (α : Type) where
  val : α
deriving DecidableEq, Repr

/-- JavaScript truthiness of a Promise object: any object is truthy,
whatever it resolves to. -/
def jsTruthy {α : Type} (_p : JsPromise α) : Bool := true

/-- `isApprovalNecessary` from `src/futures.ts`: issues the remote
allowance read and resolves to `allowance.lt(amount)`.  Returns the
pending promise and the issued call. -/
def isApprovalNecessary (account spender tokenAddress : Address)
    (amount : Int) (env : ChainEnv) : JsPromise Bool × List RCall :=
  (⟨env.allowance < amount⟩, [RCall.allowance tokenAddress account spender])

/-- `approve` from `src/futures.ts`.  Note the source calls
`isApprovalNecessary(...)` without `await`: `needsApproval` is the
Promise object itself, so `!needsApproval` is always `false` and the
skip branch is dead. -/
def approve (signer : Option Signer) (spender tokenAddress : Address)
    (amount : Int) (env : ChainEnv) : SDKResult × List RCall :=
  match signer with
  | none => (.error .NoSigner, [])
  | some sg =>
    -- const account = await signer.getAddress()
    let account := signerAddress sg
    -- const needsApproval = isApprovalNecessary(...)   (no await)
    let (needsApproval, tAllow) :=
      isApprovalNecessary account spender tokenAddress amount env
    let t := RCall.getAddress sg :: tAllow
    -- if (!needsApproval) return { transaction: undefined }
    if jsTruthy needsApproval = false then
      (.ok none, t)
    else
      -- const transaction = await token.approve(spender, amount)
      (.ok (some (RCall.approveTx tokenAddress spender amount)),
        t ++ [RCall.approveTx tokenAddress spender amount])

/-- `withdraw` from `src/futures.ts`: resolve the controller (remote read
via the registry unless one was passed), then submit
`controller.withdraw`. -/
def withdraw (signer : Option Signer) (network : Network) (future : Address)
    (amount : Int) (controller : Option Address) (env : ChainEnv) :
    SDKResult × List RCall :=
  match signer with
  | none => (.error .NoSigner, [])
  | some _ =>
    let (ctrl, t0) :=
      match controller with
      | some c => (c, ([] : List RCall))
      | none => (env.controllerAddress, [RCall.getControllerAddress network])
    (.ok (some (RCall.controllerWithdraw ctrl future amount)),
      t0 ++ [RCall.controllerWithdraw ctrl future amount])

/-- `deposit` from `src/futures.ts`: resolve the controller (remote read
via the registry unless one was passed), then submit
`controller.deposit`. -/
def deposit (signer : Option Signer) (network : Network) (future : Address)
    (amount : Int) (controller : Option Address) (env : ChainEnv) :
    SDKResult × List RCall :=
  match signer with
  | none => (.error .NoSigner, [])
  | some _ =>
    let (ctrl, t0) :=
      match controller with
      | some c => (c, ([] : List RCall))
      | none => (env.controllerAddress, [RCall.getControllerAddress network])
    (.ok (some (RCall.controllerDeposit ctrl future amount)),
      t0 ++ [RCall.controllerDeposit ctrl future amount])

/-- `updateAllowance` from `src/futures.ts`:
`bignumberAmount.isNegative() ? token.decreaseAllowance(spender,
bignumberAmount) : token.increaseAllowance(spender,
bignumberAmount.abs())`. -/
def updateAllowance (signer : Option Signer) (spender tokenAddress : Address)
    (amount : Int) : SDKResult × List RCall :=
  match signer with
  | none => (.error .NoSigner, [])
  | some _ =>
    let bignumberAmount := amount
    if bignumberAmount < 0 then
      (.ok (some (RCall.decreaseAllowance tokenAddress spender bignumberAmount)),
        [RCall.decreaseAllowance tokenAddress spender bignumberAmount])
    else
      (.ok (some (RCall.increaseAllowance tokenAddress spender |bignumberAmount|)),
        [RCall.increaseAllowance tokenAddress spender |bignumberAmount|])

/-- The caller-supplied swap parameters (`WithOptional<SwapParams,
'slippageTolerance'>`): `slippageTolerance = none` models the key being
omitted by the caller. -/
structure SwapParamsArg where
  fromToken : Nat
  toToken : Nat
  amount : Int
  slippageTolerance : Option ℚ
deriving DecidableEq, Repr

/-- The full parameter record the SDK assembles and passes to the swap
module. -/
structure FullSwapParams where
  fromToken : Nat
  toToken : Nat
  amount : Int
  slippageTolerance : ℚ
  signer : Option Signer
  network : Network
deriving DecidableEq, Repr

/-- The `APWineSDK` session object (`src/sdk.ts`): mutable fields of the
class instance.  `ready` is the readiness gate: `none` models the
initial `false`, `some k` models the promise installed by the `k`-th
initialization (the counter `gateSeq` models promise identity — each
run of the initializer creates a fresh `Promise.all`). -/
structure APWineSDK where
  ready : Option Nat
  defaultSlippage : ℚ
  network : Network
  provider : Provider
  signer : Option Signer
  AMM : BoundContract
  Registry : BoundContract
  Router : BoundContract
  PTs : Option (List Address)
  FYTs : Option (List Address)
  LP : Option BoundContract
  Controller : Option BoundContract
  gateSeq : Nat
deriving DecidableEq, Repr

/-- The synchronous effect of the public `initialize()` method: build a
fresh `Promise.all` gate and assign it to `this.ready`.  (The
asynchronous population of `Controller`/`PTs`/`FYTs`/`LP` happens later,
outside this library's control, and is not part of the synchronous
state transition.) -/
def APWineSDK.initSDK (s : APWineSDK) : APWineSDK :=
  { s with ready := some s.gateSeq, gateSeq := s.gateSeq + 1 }

/-- The `APWineSDK` constructor (`src/sdk.ts` line 333): wraps the
provider in a multicall provider, stores defaults (`defaultSlippage =
5`), binds AMM/Registry/Router with the *raw provider argument*, leaves
the async props null, and — when `options.initialize` (default true) —
runs `this.initialize()`. -/
def APWineSDK.construct (network : Network) (provider : Provider)
    (signer : Option Signer) (defaultSlippage : Option ℚ)
    (optInitialize : Bool) : APWineSDK :=
  let s : APWineSDK :=
    { ready := none
      defaultSlippage := defaultSlippage.getD 5
      network := network
      provider := Provider.multicall provider
      signer := signer
      AMM := getAMMContract (.provider provider) network
      Registry := getRegistryContract (.provider provider) network
      Router := getAMMRouterContract (.provider provider) network
      PTs := none
      FYTs := none
      LP := none
      Controller := none
      gateSeq := 0 }
  if optInitialize then s.initSDK else s

/-- `updateProvider` from `src/sdk.ts`. -/
def APWineSDK.updateProvider (s : APWineSDK) (p : Provider) : APWineSDK :=
  { s with provider := p }

/-- `updateNetwork` from `src/sdk.ts`: assigns `this.network` and nothing
else. -/
def APWineSDK.updateNetwork (s : APWineSDK) (n : Network) : APWineSDK :=
  { s with network := n }

/-- `updateSigner` from `src/sdk.ts`. -/
def APWineSDK.updateSigner (s : APWineSDK) (sg : Signer) : APWineSDK :=
  { s with signer := some sg }

/-- `updateSlippageTolerance` from `src/sdk.ts`. -/
def APWineSDK.updateSlippageTolerance (s : APWineSDK) (q : ℚ) : APWineSDK :=
  { s with defaultSlippage := q }

/-- The state-mutating public methods of the session object, as a step
alphabet.  The transaction-issuing methods never assign to the instance
fields, so they are identity on the session state and are omitted. -/
inductive SDKOp where
  | updateProvider (p : Provider)
  | updateNetwork (n : Network)
  | updateSigner (sg : Signer)
  | updateSlippageTolerance (q : ℚ)
  | initializeOp
deriving DecidableEq, Repr

/-- One public-method step on the session state. -/
def APWineSDK.step (s : APWineSDK) : SDKOp → APWineSDK
  | .updateProvider p => s.updateProvider p
  | .updateNetwork n => s.updateNetwork n
  | .updateSigner sg => s.updateSigner sg
  | .updateSlippageTolerance q => s.updateSlippageTolerance q
  | .initializeOp => s.initSDK

/-- `APWineSDK.approve` (`src/sdk.ts` line 406): direct delegation to the
futures-module `approve` with the session's signer. -/
def APWineSDK.approveOp (s : APWineSDK) (spender future : Address)
    (amount : Int) (env : ChainEnv) : SDKResult × List RCall :=
  approve s.signer spender future amount env

/-- `APWineSDK.deposit` (`src/sdk.ts` line 539):
`if (options.autoApprove && this.Controller) { await this.approve(this.Controller.address, future, amount) }`
then `deposit(this.signer, this.network, future, amount)`.  The approval
is awaited, so its calls precede the deposit's calls. -/
def APWineSDK.depositOp (s : APWineSDK) (env : ChainEnv) (future : Address)
    (amount : Int) (autoApprove : Bool) : SDKResult × List RCall :=
  let t0 :=
    match autoApprove, s.Controller with
    | true, some c => (approve s.signer c.address future amount env).2
    | _, _ => []
  let (r, t1) := deposit s.signer s.network future amount none env
  (r, t0 ++ t1)

/-- `APWineSDK.withdraw` (`src/sdk.ts` line 524): same shape as
`deposit`. -/
def APWineSDK.withdrawOp (s : APWineSDK) (env : ChainEnv) (future : Address)
    (amount : Int) (autoApprove : Bool) : SDKResult × List RCall :=
  let t0 :=
    match autoApprove, s.Controller with
    | true, some c => (approve s.signer c.address future amount env).2
    | _, _ => []
  let (r, t1) := withdraw s.signer s.network future amount none env
  (r, t0 ++ t1)

/-- `APWineSDK.updateAllowance` (`src/sdk.ts` line 509):
`if (options.autoApprove) { this.approve(spender, future, amount) }` —
the approval is fired *without* `await`.  Only its synchronous prefix
(the calls issued before its first internal `await`, i.e. the
`getAddress` issuance) runs at the call site; its remaining calls are
issued only after the caller's synchronous segment, hence after the
primary allowance-update transaction has been issued. -/
def APWineSDK.updateAllowanceOp (s : APWineSDK) (spender future : Address)
    (amount : Int) (autoApprove : Bool) (env : ChainEnv) :
    SDKResult × List RCall :=
  let fired := if autoApprove then (approve s.signer spender future amount env).2 else []
  let syncPrefix := fired.take 1
  let deferred := fired.drop 1
  let (r, t1) := updateAllowance s.signer spender future amount
  (r, syncPrefix ++ t1 ++ deferred)

/-- `APWineSDK.swapIn` parameter assembly (`src/sdk.ts` line 553):
`{ slippageTolerance: this.defaultSlippage, ...params, signer: this.signer, network: this.network }`
— the spread overrides the default only when the caller supplied the
key. -/
def APWineSDK.swapInParams (s : APWineSDK) (p : SwapParamsArg) : FullSwapParams :=
  { fromToken := p.fromToken
    toToken := p.toToken
    amount := p.amount
    slippageTolerance := p.slippageTolerance.getD s.defaultSlippage
    signer := s.signer
    network := s.network }

/-- `APWineSDK.swapOut` parameter assembly (`src/sdk.ts` line 568): same
shape as `swapIn`. -/
def APWineSDK.swapOutParams (s : APWineSDK) (p : SwapParamsArg) : FullSwapParams :=
  { fromToken := p.fromToken
    toToken := p.toToken
    amount := p.amount
    slippageTolerance := p.slippageTolerance.getD s.defaultSlippage
    signer := s.signer
    network := s.network }

/-- Token kinds (`APWToken` from `src/constants`): the nodes of the swap
path graph — principal token, yield token, underlying. -/
inductive APWToken where
  | PT
  | FYT
  | Underlying
deriving DecidableEq, Repr, Fintype

/-- The fixed enumeration order of token kinds, used both to enumerate
graph edges and as the breadth-first-search tie-break order. -/
def allTokens : List APWToken := [.PT, .FYT, .Underlying]

/-- Modelled from the spec (`findTokenPath` in `src/utils/swap` is not
under `src/`): the result of a successful path resolution — the ordered
hop sequence (directed edges) and the display path (token kinds). -/
structure PathResult where
  hops : List (APWToken × APWToken)
  displayPath : List APWToken
deriving DecidableEq, Repr

/-- Modelled from the spec: the `NoPathFound` error names both
endpoints. -/
structure NoPathFound where
  source : APWToken
  target : APWToken
deriving DecidableEq, Repr

/-- A graph over token kinds given by its 9 directed-edge indicators, in
`allTokens × allTokens` enumeration order. -/
def mkGraph (ptpt ptfyt ptu fytpt fytfyt fytu upt ufyt uu : Bool) :
    APWToken → APWToken → Bool
  | .PT, .PT => ptpt
  | .PT, .FYT => ptfyt
  | .PT, .Underlying => ptu
  | .FYT, .PT => fytpt
  | .FYT, .FYT => fytfyt
  | .FYT, .Underlying => fytu
  | .Underlying, .PT => upt
  | .Underlying, .FYT => ufyt
  | .Underlying, .Underlying => uu

/-- Modelled from the spec: breadth-first search over the token-kind
graph.  The queue holds paths in reverse (head = frontier node); nodes
are marked visited at enqueue time; the target is detected at first
discovery among the neighbours, in enumeration order.  Fuel bounds the
number of dequeues (at most one per node, so 4 suffices for 3 nodes). -/
def bfsPaths (g : APWToken → APWToken → Bool) (target : APWToken) :
    List (List APWToken) → List APWToken → Nat → Option (List APWToken)
  | _, _, 0 => none
  | [], _, _ => none
  | p :: queue, visited, fuel + 1 =>
    match p.head? with
    | none => none
    | some cur =>
      let nbrs := allTokens.filter (fun t => g cur t && !(visited.contains t))
      if nbrs.contains target then
        some ((target :: p).reverse)
      else
        bfsPaths g target (queue ++ nbrs.map (fun t => t :: p)) (visited ++ nbrs) fuel

/-- Modelled from the spec: `resolvePath(from, to)` — identity path when
`from == to`, otherwise a breadth-first search producing a shortest hop
sequence, or `NoPathFound` naming both endpoints when `to` is
unreachable from `from`. -/
def resolvePath (g : APWToken → APWToken → Bool) (source target : APWToken) :
    Except NoPathFound PathResult :=
  if source = target then
    .ok ⟨[], [source]⟩
  else
    match bfsPaths g target [[source]] [source] 4 with
    | some path => .ok ⟨path.zip path.tail, path⟩
    | none => .error ⟨source, target⟩

instance {ε α : Type} [DecidableEq ε] [DecidableEq α] :
    DecidableEq (Except ε α) := fun a b =>
  match a, b with
  | .ok x, .ok y =>
      if h : x = y then .isTrue (by rw [h]) else .isFalse (by simp [h])
  | .error x, .error y =>
      if h : x = y then .isTrue (by rw [h]) else .isFalse (by simp [h])
  | .ok _, .error _ => .isFalse (by simp)
  | .error _, .ok _ => .isFalse (by simp)

/-- `distLe g k a b` decides whether `b` is reachable from `a` by a
directed walk of at most `k` hops. -/
def distLe (g : APWToken → APWToken → Bool) : Nat → APWToken → APWToken → Bool
  | 0, a, b => a = b
  | k + 1, a, b => a = b || allTokens.any (fun c => g a c && distLe g k c b)

/-- The true shortest directed distance: the least hop count within the
graph's diameter bound (3 nodes, so any shortest path has at most 3
hops), or `none` when unreachable. -/
def shortestDist (g : APWToken → APWToken → Bool) (a b : APWToken) : Option Nat :=
  (List.range 4).find? (fun k => distLe g k a b)

/-- Executable check of the path-resolver contract at one graph and one
endpoint pair: a returned path starts at the source, ends at the
target, and its hop count is the true shortest distance; the error case
names both endpoints and coincides with unreachability. -/
def pathSpecCheck (g : APWToken → APWToken → Bool) (source target : APWToken) :
    Bool :=
  match resolvePath g source target with
  | .ok r =>
      r.displayPath.head? == some source &&
      r.displayPath.getLast? == some target &&
      shortestDist g source target == some r.hops.length
  | .error e =>
      e.source == source && e.target == target &&
      shortestDist g source target == none

/-- Well-formedness of the gate counter: any installed gate was produced
by an earlier initialization, so its id is below the counter. -/
def GateWF (s : APWineSDK) : Prop :=
  ∀ k, s.ready = some k → k < s.gateSeq

/-- A concrete session constructed without a signer (read-only). -/
def sdkReadOnly : APWineSDK :=
  APWineSDK.construct .mainnet (.base 0) none none true

/-- A concrete session with a signer, after the asynchronous
initialization has populated the Controller handle. -/
def sdkSigning : APWineSDK :=
  { APWineSDK.construct .mainnet (.base 0) (some 7) none true with
      Controller := some ⟨.provider (.base 0), .addr 100⟩ }

/-- A concrete chain environment whose recorded allowance (1000) already
covers the amounts requested in the concrete scenarios. -/
def envEx : ChainEnv := ⟨1000, .addr 55⟩

set_option maxRecDepth 8000 in
theorem pathSpecCheck_all :
    ∀ e1 e2 e3 e4 e5 e6 e7 e8 e9 : Bool, ∀ source target : APWToken,
      pathSpecCheck (mkGraph e1 e2 e3 e4 e5 e6 e7 e8 e9) source target = true := by
  decide

/-- C4: for every token-kind graph and every pair (from, to), the path
resolver returns a hop sequence whose display path starts at the source
and ends at the target with hop count equal to the true shortest
directed distance, and reports NoPathFound naming both endpoints
exactly when the target is unreachable. -/
theorem resolvePath_shortest :
    ∀ e1 e2 e3 e4 e5 e6 e7 e8 e9 : Bool, ∀ source target : APWToken,
      (∀ r : PathResult,
        resolvePath (mkGraph e1 e2 e3 e4 e5 e6 e7 e8 e9) source target = .ok r →
          r.displayPath.head? = some source ∧
          r.displayPath.getLast? = some target ∧
          shortestDist (mkGraph e1 e2 e3 e4 e5 e6 e7 e8 e9) source target =
            some r.hops.length) ∧
      (∀ e : NoPathFound,
        resolvePath (mkGraph e1 e2 e3 e4 e5 e6 e7 e8 e9) source target = .error e →
          e.source = source ∧ e.target = target ∧
          shortestDist (mkGraph e1 e2 e3 e4 e5 e6 e7 e8 e9) source target = none) := by
  intro e1 e2 e3 e4 e5 e6 e7 e8 e9 source target
  have h := pathSpecCheck_all e1 e2 e3 e4 e5 e6 e7 e8 e9 source target
  unfold pathSpecCheck at h
  constructor
  · intro r hr
    rw [hr] at h
    simp only [Bool.and_eq_true, beq_iff_eq] at h
    exact ⟨h.1.1, h.1.2, h.2⟩
  · intro e he
    rw [he] at h
    simp only [Bool.and_eq_true, beq_iff_eq] at h
    exact ⟨h.1.1, h.1.2, h.2⟩

/-- Witness for C4: in the graph with edges PT→FYT and FYT→Underlying, the
resolved PT→Underlying path starts at PT, ends at Underlying and has the
shortest length 2, and the unreachable pair Underlying→PT reports
NoPathFound naming both endpoints. -/
theorem resolvePath_shortest_witness :
    ((⟨[(.PT, .FYT), (.FYT, .Underlying)],
       [.PT, .FYT, .Underlying]⟩ : PathResult).displayPath.head? =
        some APWToken.PT ∧
     (⟨[(.PT, .FYT), (.FYT, .Underlying)],
       [.PT, .FYT, .Underlying]⟩ : PathResult).displayPath.getLast? =
        some APWToken.Underlying ∧
     shortestDist (mkGraph false true false false false true false false false)
       .PT .Underlying = some 2) ∧
    ((⟨.Underlying, .PT⟩ : NoPathFound).source = APWToken.Underlying ∧
     (⟨.Underlying, .PT⟩ : NoPathFound).target = APWToken.PT ∧
     shortestDist (mkGraph false true false false false true false false false)
       .Underlying .PT = none) :=
  ⟨(resolvePath_shortest false true false false false true false false false
      .PT .Underlying).1 _ (by decide),
   (resolvePath_shortest false true false false false true false false false
      .Underlying .PT).2 _ (by decide)⟩

/-- C8: for every token-kind graph, resolving a path from a token kind to
itself returns the identity path — empty hop sequence, singleton display
path — never NoPathFound. -/
theorem resolvePath_identity :
    ∀ e1 e2 e3 e4 e5 e6 e7 e8 e9 : Bool, ∀ x : APWToken,
      resolvePath (mkGraph e1 e2 e3 e4 e5 e6 e7 e8 e9) x x =
        .ok ⟨[], [x]⟩ := by
  intro e1 e2 e3 e4 e5 e6 e7 e8 e9 x
  unfold resolvePath
  rw [if_pos rfl]

/-- C2: with a signer present, approve always submits the approval
transaction to the token contract — whatever allowance the chain
reports, and with the whole call unchanged between any two chain
environments — and every autoApprove operation likewise issues the
approval; the allowance-sufficiency check never causes a skip. -/
theorem approve_always_submits (sg : Signer) (spender token : Address)
    (amount : Int) (env envAlt : ChainEnv) :
    RCall.approveTx token spender amount ∈
      (approve (some sg) spender token amount env).2 ∧
    (approve (some sg) spender token amount env).1 =
      .ok (some (RCall.approveTx token spender amount)) ∧
    approve (some sg) spender token amount env =
      approve (some sg) spender token amount envAlt ∧
    (∀ (s : APWineSDK) (c : BoundContract) (future : Address),
      s.signer = some sg → s.Controller = some c →
        RCall.approveTx future c.address amount ∈
          (s.depositOp env future amount true).2 ∧
        RCall.approveTx future c.address amount ∈
          (s.withdrawOp env future amount true).2) ∧
    (∀ (s : APWineSDK) (spender2 future : Address),
      s.signer = some sg →
        RCall.approveTx future spender2 amount ∈
          (s.updateAllowanceOp spender2 future amount true env).2) := by
  refine ⟨?_, rfl, rfl, ?_, ?_⟩
  · simp [approve, isApprovalNecessary, jsTruthy, signerAddress]
  · intro s c future hs hc
    constructor <;>
      simp [APWineSDK.depositOp, APWineSDK.withdrawOp, approve,
        isApprovalNecessary, jsTruthy, signerAddress, hs, hc]
  · intro s spender2 future hs
    simp [APWineSDK.updateAllowanceOp, approve, isApprovalNecessary,
      jsTruthy, signerAddress, hs, updateAllowance]

/-- Witness for C2: at a concrete signing session whose chain allowance
(1000) already covers the requested amount (100), the approval
transaction is still submitted by approve, deposit, withdraw and
updateAllowance. -/
theorem approve_always_submits_witness :
    RCall.approveTx (.addr 9) (.addr 1) 100 ∈
      (approve (some 7) (.addr 1) (.addr 9) 100 envEx).2 ∧
    RCall.approveTx (.addr 9) (.addr 100) 100 ∈
      (sdkSigning.depositOp envEx (.addr 9) 100 true).2 ∧
    RCall.approveTx (.addr 9) (.addr 100) 100 ∈
      (sdkSigning.withdrawOp envEx (.addr 9) 100 true).2 ∧
    RCall.approveTx (.addr 9) (.addr 1) 100 ∈
      (sdkSigning.updateAllowanceOp (.addr 1) (.addr 9) 100 true envEx).2 :=
  ⟨(approve_always_submits 7 (.addr 1) (.addr 9) 100 envEx envEx).1,
   ((approve_always_submits 7 (.addr 100) (.addr 9) 100 envEx envEx).2.2.2.1
      sdkSigning ⟨.provider (.base 0), .addr 100⟩ (.addr 9)
      (by decide) (by decide)).1,
   ((approve_always_submits 7 (.addr 100) (.addr 9) 100 envEx envEx).2.2.2.1
      sdkSigning ⟨.provider (.base 0), .addr 100⟩ (.addr 9)
      (by decide) (by decide)).2,
   (approve_always_submits 7 (.addr 1) (.addr 9) 100 envEx envEx).2.2.2.2
      sdkSigning (.addr 1) (.addr 9) (by decide)⟩

/-- C3: every transaction-issuing operation invoked on a session with no
signer returns the NoSigner error record with an empty remote-call
trace — no read and no write is issued. -/
theorem noSigner_no_calls (s : APWineSDK) (h : s.signer = none)
    (env : ChainEnv) (spender future : Address) (amount : Int)
    (auto : Bool) :
    s.approveOp spender future amount env = (.error .NoSigner, []) ∧
    s.depositOp env future amount auto = (.error .NoSigner, []) ∧
    s.withdrawOp env future amount auto = (.error .NoSigner, []) ∧
    s.updateAllowanceOp spender future amount auto env =
      (.error .NoSigner, []) := by
  refine ⟨?_, ?_, ?_, ?_⟩ <;>
    cases auto <;> rcases hC : s.Controller with _ | c <;>
      simp [APWineSDK.approveOp, APWineSDK.depositOp, APWineSDK.withdrawOp,
        APWineSDK.updateAllowanceOp, approve, deposit, withdraw,
        updateAllowance, h, hC]

/-- Witness for C3: on a concrete read-only session, approve, deposit,
withdraw and updateAllowance all return the NoSigner error with an
empty trace. -/
theorem noSigner_no_calls_witness :
    sdkReadOnly.approveOp (.addr 1) (.addr 9) 100 envEx =
      (.error .NoSigner, []) ∧
    sdkReadOnly.depositOp envEx (.addr 9) 100 true =
      (.error .NoSigner, []) ∧
    sdkReadOnly.withdrawOp envEx (.addr 9) 100 true =
      (.error .NoSigner, []) ∧
    sdkReadOnly.updateAllowanceOp (.addr 1) (.addr 9) 100 true envEx =
      (.error .NoSigner, []) :=
  noSigner_no_calls sdkReadOnly (by decide) envEx (.addr 1) (.addr 9) 100 true

/-- C10: with a signer present, updateAllowance submits decreaseAllowance
passing the negative amount itself when the amount is negative, and
increaseAllowance with the amount when it is non-negative. -/
theorem updateAllowance_sign_dispatch (sg : Signer) (spender token : Address)
    (amount : Int) :
    (amount < 0 →
      updateAllowance (some sg) spender token amount =
        (.ok (some (RCall.decreaseAllowance token spender amount)),
         [RCall.decreaseAllowance token spender amount])) ∧
    (0 ≤ amount →
      updateAllowance (some sg) spender token amount =
        (.ok (some (RCall.increaseAllowance token spender amount)),
         [RCall.increaseAllowance token spender amount])) := by
  constructor <;> intro h
  · simp [updateAllowance, h]
  · simp [updateAllowance, not_lt.mpr h, abs_of_nonneg h]

/-- Witness for C10: at amount -3 a decreaseAllowance carrying -3 is
submitted; at amount 4 an increaseAllowance carrying 4 is submitted. -/
theorem updateAllowance_sign_dispatch_witness :
    updateAllowance (some 7) (.addr 1) (.addr 9) (-3) =
      (.ok (some (RCall.decreaseAllowance (.addr 9) (.addr 1) (-3))),
       [RCall.decreaseAllowance (.addr 9) (.addr 1) (-3)]) ∧
    updateAllowance (some 7) (.addr 1) (.addr 9) 4 =
      (.ok (some (RCall.increaseAllowance (.addr 9) (.addr 1) 4)),
       [RCall.increaseAllowance (.addr 9) (.addr 1) 4]) :=
  ⟨(updateAllowance_sign_dispatch 7 (.addr 1) (.addr 9) (-3)).1 (by decide),
   (updateAllowance_sign_dispatch 7 (.addr 1) (.addr 9) 4).2 (by decide)⟩

/-- C1 (counterexample): in the deposit scenario with a signer, a resolved
Controller handle and autoApprove, the remote-call sequence is not the
claimed "exactly two remote calls — the approval then the deposit": the
operation also issues a signer-address lookup, an allowance read and a
controller-address read. -/
theorem deposit_two_calls_counterexample :
    ¬ ((sdkSigning.depositOp envEx (.addr 9) 100 true).2 =
        [RCall.approveTx (.addr 9) (.addr 100) 100,
         RCall.controllerDeposit (.addr 55) (.addr 9) 100]) := by
  decide

/-- C1 (amended): with a signer and a resolved Controller handle, deposit
and withdraw under autoApprove issue and await the approval sized to the
requested amount (spender = the controller address) strictly before the
primary transaction, the result carries the primary transaction handle,
and the full trace consists of five remote calls, not two; with the
Controller handle unresolved autoApprove issues no approval at all; and
updateAllowance fires the approval without awaiting it, so its approval
transaction is issued only after the primary allowance-update
transaction. -/
theorem autoApprove_order_amended :
    (∀ (s : APWineSDK) (env : ChainEnv) (sg : Signer) (c : BoundContract)
        (future : Address) (amount : Int),
      s.signer = some sg → s.Controller = some c →
        s.depositOp env future amount true =
          (.ok (some (RCall.controllerDeposit env.controllerAddress future amount)),
           [RCall.getAddress sg,
            RCall.allowance future (Address.ofSigner sg) c.address,
            RCall.approveTx future c.address amount,
            RCall.getControllerAddress s.network,
            RCall.controllerDeposit env.controllerAddress future amount]) ∧
        s.withdrawOp env future amount true =
          (.ok (some (RCall.controllerWithdraw env.controllerAddress future amount)),
           [RCall.getAddress sg,
            RCall.allowance future (Address.ofSigner sg) c.address,
            RCall.approveTx future c.address amount,
            RCall.getControllerAddress s.network,
            RCall.controllerWithdraw env.controllerAddress future amount])) ∧
    (∀ (s : APWineSDK) (env : ChainEnv) (future : Address) (amount : Int),
      s.Controller = none →
        s.depositOp env future amount true = s.depositOp env future amount false ∧
        s.withdrawOp env future amount true = s.withdrawOp env future amount false) ∧
    (∀ (s : APWineSDK) (env : ChainEnv) (sg : Signer) (spender future : Address)
        (amount : Int),
      s.signer = some sg → 0 ≤ amount →
        s.updateAllowanceOp spender future amount true env =
          (.ok (some (RCall.increaseAllowance future spender amount)),
           [RCall.getAddress sg,
            RCall.increaseAllowance future spender amount,
            RCall.allowance future (Address.ofSigner sg) spender,
            RCall.approveTx future spender amount])) := by
  refine ⟨?_, ?_, ?_⟩
  · intro s env sg c future amount hs hc
    constructor <;>
      simp [APWineSDK.depositOp, APWineSDK.withdrawOp, approve, deposit,
        withdraw, isApprovalNecessary, jsTruthy, signerAddress, hs, hc]
  · intro s env future amount hc
    constructor <;>
      simp [APWineSDK.depositOp, APWineSDK.withdrawOp, hc]
  · intro s env sg spender future amount hs hamt
    simp [APWineSDK.updateAllowanceOp, approve, updateAllowance,
      isApprovalNecessary, jsTruthy, signerAddress, hs,
      not_lt.mpr hamt, abs_of_nonneg hamt]

/-- Witness for C1 (amended): the concrete deposit scenario (amount 100)
produces the five-call trace with the approval awaited before the
deposit and the deposit handle in the result; the concrete
updateAllowance scenario issues its approval only after the primary
transaction. -/
theorem autoApprove_order_amended_witness :
    sdkSigning.depositOp envEx (.addr 9) 100 true =
      (.ok (some (RCall.controllerDeposit (.addr 55) (.addr 9) 100)),
       [RCall.getAddress 7,
        RCall.allowance (.addr 9) (Address.ofSigner 7) (.addr 100),
        RCall.approveTx (.addr 9) (.addr 100) 100,
        RCall.getControllerAddress .mainnet,
        RCall.controllerDeposit (.addr 55) (.addr 9) 100]) ∧
    sdkSigning.updateAllowanceOp (.addr 1) (.addr 9) 100 true envEx =
      (.ok (some (RCall.increaseAllowance (.addr 9) (.addr 1) 100)),
       [RCall.getAddress 7,
        RCall.increaseAllowance (.addr 9) (.addr 1) 100,
        RCall.allowance (.addr 9) (Address.ofSigner 7) (.addr 1),
        RCall.approveTx (.addr 9) (.addr 1) 100]) :=
  ⟨((autoApprove_order_amended.1 sdkSigning envEx 7
      ⟨.provider (.base 0), .addr 100⟩ (.addr 9) 100
      (by decide) (by decide)).1),
   autoApprove_order_amended.2.2 sdkSigning envEx 7 (.addr 1) (.addr 9) 100
      (by decide) (by decide)⟩

/-- C5 (counterexample): constructing with a signer supplied does not bind
the AMM handle with the signer — the constructor passes the raw provider
to every fixed-address contract getter. -/
theorem construct_signer_binding_counterexample :
    ¬ ((APWineSDK.construct .mainnet (.base 0) (some 7) none true).AMM.cap =
        .signer 7) := by
  decide

/-- C5 (amended): for every construction — with or without a signer — the
constructor binds the AMM, Registry and Router handles using the raw
read-only provider argument, never the signer. -/
theorem construct_binds_provider (network : Network) (provider : Provider)
    (signer : Option Signer) (slippage : Option ℚ) (optInit : Bool) :
    (APWineSDK.construct network provider signer slippage optInit).AMM =
      ⟨.provider provider, AMM_ADDRESS network⟩ ∧
    (APWineSDK.construct network provider signer slippage optInit).Registry =
      ⟨.provider provider, REGISTRY_ADDRESS network⟩ ∧
    (APWineSDK.construct network provider signer slippage optInit).Router =
      ⟨.provider provider, ROUTER_ADDRESS network⟩ := by
  cases optInit <;>
    simp [APWineSDK.construct, APWineSDK.initSDK, getAMMContract,
      getRegistryContract, getAMMRouterContract]

/-- C6 (counterexample): the public initialize method, run on an
already-initialized session, replaces the readiness gate with a fresh
one — a sequence of public operations re-creates the gate after it has
been set. -/
theorem ready_gate_replaced_counterexample :
    ¬ (((APWineSDK.construct .mainnet (.base 0) none none true).step
          .initializeOp).ready =
        (APWineSDK.construct .mainnet (.base 0) none none true).ready) := by
  decide

/-- C6 (amended): the constructor installs the gate exactly once (when the
initialize option is set, the default), and no public operation other
than initialize ever touches the gate; but initialize is itself public
and every call installs a fresh gate, so the gate is not write-once
across all public operations. -/
theorem ready_gate_amended :
    (∀ (s : APWineSDK) (op : SDKOp), op ≠ .initializeOp →
        (s.step op).ready = s.ready) ∧
    (∀ (n : Network) (p : Provider) (sg : Option Signer) (sl : Option ℚ),
        (APWineSDK.construct n p sg sl true).ready = some 0 ∧
        (APWineSDK.construct n p sg sl false).ready = none ∧
        GateWF (APWineSDK.construct n p sg sl true) ∧
        GateWF (APWineSDK.construct n p sg sl false)) ∧
    (∀ s : APWineSDK, GateWF s →
        (s.step .initializeOp).ready ≠ s.ready) ∧
    (∀ (s : APWineSDK) (op : SDKOp), GateWF s → GateWF (s.step op)) := by
  refine ⟨?_, ?_, ?_, ?_⟩
  · intro s op hop
    cases op <;>
      simp_all [APWineSDK.step, APWineSDK.updateProvider,
        APWineSDK.updateNetwork, APWineSDK.updateSigner,
        APWineSDK.updateSlippageTolerance]
  · intro n p sg sl
    refine ⟨rfl, rfl, ?_, ?_⟩ <;> intro k hk <;>
      simp [APWineSDK.construct, APWineSDK.initSDK] at hk ⊢
    omega
  · intro s hWF heq
    have : s.ready = some s.gateSeq := by
      simpa [APWineSDK.step, APWineSDK.initSDK] using heq.symm
    exact lt_irrefl s.gateSeq (hWF s.gateSeq this)
  · intro s op hWF
    cases op <;>
      simp_all [GateWF, APWineSDK.step, APWineSDK.updateProvider,
        APWineSDK.updateNetwork, APWineSDK.updateSigner,
        APWineSDK.updateSlippageTolerance, APWineSDK.initSDK]

/-- Witness for C6 (amended): on a concrete constructed session, an
updateNetwork step leaves the gate unchanged, while an initialize step
replaces it. -/
theorem ready_gate_amended_witness :
    (((APWineSDK.construct .mainnet (.base 0) none none true).step
        (.updateNetwork .polygon)).ready =
      (APWineSDK.construct .mainnet (.base 0) none none true).ready) ∧
    (((APWineSDK.construct .mainnet (.base 0) none none true).step
        .initializeOp).ready ≠
      (APWineSDK.construct .mainnet (.base 0) none none true).ready) :=
  ⟨ready_gate_amended.1 _ (.updateNetwork .polygon) (by decide),
   ready_gate_amended.2.2.1 _
     (ready_gate_amended.2.1 .mainnet (.base 0) none none).2.2.1⟩

/-- C7: updateNetwork changes only the network field — it re-resolves no
contract address and leaves every other session field (AMM, Registry,
Router, Controller, LP, PTs, FYTs, provider, signer, slippage, gate)
unchanged, still bound to the old network's addresses. -/
theorem updateNetwork_frame (s : APWineSDK) (n : Network) :
    (s.updateNetwork n).network = n ∧
    (s.updateNetwork n).AMM = s.AMM ∧
    (s.updateNetwork n).Registry = s.Registry ∧
    (s.updateNetwork n).Router = s.Router ∧
    (s.updateNetwork n).Controller = s.Controller ∧
    (s.updateNetwork n).LP = s.LP ∧
    (s.updateNetwork n).PTs = s.PTs ∧
    (s.updateNetwork n).FYTs = s.FYTs ∧
    (s.updateNetwork n).provider = s.provider ∧
    (s.updateNetwork n).signer = s.signer ∧
    (s.updateNetwork n).defaultSlippage = s.defaultSlippage ∧
    (s.updateNetwork n).ready = s.ready ∧
    (s.updateNetwork n).gateSeq = s.gateSeq :=
  ⟨rfl, rfl, rfl, rfl, rfl, rfl, rfl, rfl, rfl, rfl, rfl, rfl, rfl⟩

/-- C9 (counterexample): a session constructed without an explicit
defaultSlippage value does not have slippage tolerance 0.5 — the
constructor's default is 5. -/
theorem defaultSlippage_half_counterexample :
    ¬ ((APWineSDK.construct .mainnet (.base 0) none none
        true).defaultSlippage = 1 / 2) := by
  norm_num [APWineSDK.construct, APWineSDK.initSDK]

/-- C9 (amended): when no explicit defaultSlippage is supplied the
session's default slippage tolerance equals 5, and that stored default
is the slippageTolerance swapIn and swapOut place in the assembled swap
parameters whenever the caller omits one. -/
theorem defaultSlippage_amended :
    (∀ (n : Network) (p : Provider) (sg : Option Signer) (optInit : Bool),
        (APWineSDK.construct n p sg none optInit).defaultSlippage = 5) ∧
    (∀ (s : APWineSDK) (q : SwapParamsArg), q.slippageTolerance = none →
        (s.swapInParams q).slippageTolerance = s.defaultSlippage ∧
        (s.swapOutParams q).slippageTolerance = s.defaultSlippage) := by
  constructor
  · intro n p sg optInit
    cases optInit <;> simp [APWineSDK.construct, APWineSDK.initSDK]
  · intro s q hq
    constructor <;>
      simp [APWineSDK.swapInParams, APWineSDK.swapOutParams, hq]

/-- Witness for C9 (amended): a concrete session constructed without a
slippage value stores 5, and a swapIn call omitting slippageTolerance
assembles parameters carrying that stored default. -/
theorem defaultSlippage_amended_witness :
    (APWineSDK.construct .mainnet (.base 0) none none
        true).defaultSlippage = 5 ∧
    (sdkReadOnly.swapInParams ⟨0, 1, 100, none⟩).slippageTolerance =
      sdkReadOnly.defaultSlippage :=
  ⟨defaultSlippage_amended.1 .mainnet (.base 0) none true,
   (defaultSlippage_amended.2 sdkReadOnly ⟨0, 1, 100, none⟩ rfl).1⟩
